import Mathlib

/-!
Verification development for the pedal_communication repository.

Shallow embedding of the wire codecs, client devices, the UDP device
emulator (mocker) and the data buffer. Byte strings are modelled as
`List Nat` with every element below 256. IEEE-754 doubles that are only
moved around (never computed with) are modelled by their 64-bit
big-endian bit pattern; doubles that are compared or added are modelled
over the rationals.
-/

namespace PedalComm

/-- Big-endian encoding of a 16-bit unsigned value, as struct pack with
format !H produces for values below 65536. -/
def pack2 (v : Nat) : List Nat := [v / 256 % 256, v % 256]

/-- Big-endian encoding of a 32-bit unsigned value, as struct pack with
format !I produces for values below 4294967296. The code also packs
nonnegative signed 32-bit values (format !i) which coincide with this
encoding below 2147483648. -/
def pack4 (v : Nat) : List Nat :=
  [v / 16777216 % 256, v / 65536 % 256, v / 256 % 256, v % 256]

/-- Read a big-endian 16-bit unsigned value at byte offset i. -/
def unpack2 (data : List Nat) (i : Nat) : Nat :=
  256 * data.getD i 0 + data.getD (i + 1) 0

/-- Read a big-endian 32-bit unsigned value at byte offset i. -/
def unpack4 (data : List Nat) (i : Nat) : Nat :=
  16777216 * data.getD i 0 + 65536 * data.getD (i + 1) 0 +
    256 * data.getD (i + 2) 0 + data.getD (i + 3) 0

/-- Read a big-endian 32-bit signed value (struct format !i) at byte
offset i: the unsigned value reinterpreted in two's complement. -/
def unpackInt32 (data : List Nat) (i : Nat) : Int :=
  let u : Int := unpack4 data i
  if u < 2147483648 then u else u - 4294967296

/-- Read a big-endian 64-bit pattern at byte offset i. This is how an
IEEE-754 double that is only transported, never inspected, is modelled:
struct unpack with format !d is injective on these 8-byte patterns. -/
def unpack8 (data : List Nat) (i : Nat) : Nat :=
  ((((((data.getD i 0 * 256 + data.getD (i + 1) 0) * 256 + data.getD (i + 2) 0) * 256 +
    data.getD (i + 3) 0) * 256 + data.getD (i + 4) 0) * 256 + data.getD (i + 5) 0) * 256 +
    data.getD (i + 6) 0) * 256 + data.getD (i + 7) 0

section UdpDataFrame

/-- UdpProtocolConstants.data_magic_code. -/
def dataMagicCode : Nat := 0xDA7A

/-- UdpProtocolConstants.data_version. -/
def dataVersion : Nat := 1

/-- UdpProtocolConstants.data_header_len: struct calcsize of the network
order format with fields H H I H H, hence 12 bytes. -/
def dataHeaderLen : Nat := 12

/-- UdpResponseProtocol.deserialize from
devices/udp_communication_protocol.py lines 209-240, translated field by
field. The returned matrix holds the 64-bit patterns of the unpacked
doubles, reshaped to sample_count rows of channel_count values. The
previous sequence id argument defaults to -1 when absent, exactly as the
Python code substitutes None by -1. -/
def udpDeserialize (data : List Nat) (previousSequenceId : Option Int) :
    Option (List (List Nat)) × Int :=
  let prev : Int := previousSequenceId.getD (-1)
  if data.length < dataHeaderLen then (none, prev)
  else
    let magic := unpack2 data 0
    let ver := unpack2 data 2
    let sequenceId := unpack4 data 4
    let sampleCount := unpack2 data 8
    let channelCount := unpack2 data 10
    if magic ≠ dataMagicCode ∧ ver ≠ dataVersion then (none, prev)
    else
      let payload := data.drop dataHeaderLen
      let expectedDoubles := sampleCount * channelCount
      if payload.length < expectedDoubles * 8 then (none, prev)
      else if prev > (sequenceId : Int) then (none, prev)
      else
        let values := (List.range expectedDoubles).map (fun k => unpack8 payload (8 * k))
        let matrix := (List.range sampleCount).map
          (fun i => (List.range channelCount).map (fun j => values.getD (i * channelCount + j) 0))
        (some matrix, (sequenceId : Int))

/-- Datagram with the well-formed data-frame header layout the streamer
emits: magic 0xDA7A, version 1, then sequence id, sample count and
channel count over the payload bytes. -/
def mkDataFrame (seq sampleCount channelCount : Nat) (payload : List Nat) : List Nat :=
  pack2 dataMagicCode ++ pack2 dataVersion ++ pack4 seq ++
    pack2 sampleCount ++ pack2 channelCount ++ payload

/-- The accepted-branch sample matrix of udpDeserialize on a frame built
by mkDataFrame: sampleCount rows of channelCount transported doubles. -/
def udpMatrixOf (sampleCount channelCount : Nat) (payload : List Nat) : List (List Nat) :=
  (List.range sampleCount).map
    (fun i => (List.range channelCount).map (fun j =>
      ((List.range (sampleCount * channelCount)).map
        (fun k => unpack8 payload (8 * k))).getD (i * channelCount + j) 0))

/-- Evaluation of udpDeserialize on a well-formed frame: the only gate
left is the plain integer comparison of the previous sequence id with
the incoming one. -/
lemma udpDeserialize_mkDataFrame (seq sampleCount channelCount : Nat) (payload : List Nat)
    (prev : Option Int) (hseq : seq < 4294967296)
    (hsc : sampleCount < 65536) (hcc : channelCount < 65536)
    (hpay : sampleCount * channelCount * 8 ≤ payload.length) :
    udpDeserialize (mkDataFrame seq sampleCount channelCount payload) prev =
      if prev.getD (-1) > (seq : Int) then (none, prev.getD (-1))
      else (some (udpMatrixOf sampleCount channelCount payload), (seq : Int)) := by
  have hlen : (mkDataFrame seq sampleCount channelCount payload).length
      = payload.length + 12 := rfl
  have hmagic : unpack2 (mkDataFrame seq sampleCount channelCount payload) 0 = 55930 := rfl
  have hver : unpack2 (mkDataFrame seq sampleCount channelCount payload) 2 = 1 := rfl
  have hseq4 : unpack4 (mkDataFrame seq sampleCount channelCount payload) 4 = seq := by
    have : unpack4 (mkDataFrame seq sampleCount channelCount payload) 4 =
        16777216 * (seq / 16777216 % 256) + 65536 * (seq / 65536 % 256) +
          256 * (seq / 256 % 256) + seq % 256 := rfl
    rw [this]; omega
  have hsc2 : unpack2 (mkDataFrame seq sampleCount channelCount payload) 8 = sampleCount := by
    have : unpack2 (mkDataFrame seq sampleCount channelCount payload) 8 =
        256 * (sampleCount / 256 % 256) + sampleCount % 256 := rfl
    rw [this]; omega
  have hcc2 : unpack2 (mkDataFrame seq sampleCount channelCount payload) 10 = channelCount := by
    have : unpack2 (mkDataFrame seq sampleCount channelCount payload) 10 =
        256 * (channelCount / 256 % 256) + channelCount % 256 := rfl
    rw [this]; omega
  have hdrop : (mkDataFrame seq sampleCount channelCount payload).drop 12 = payload := rfl
  simp only [udpDeserialize, dataHeaderLen, dataMagicCode, dataVersion, hlen, hmagic, hver,
    hseq4, hsc2, hcc2, hdrop]
  rw [if_neg (by omega)]
  rw [if_neg (by simp)]
  rw [if_neg (by omega)]
  simp only [udpMatrixOf]

/-- C1. The claim states acceptance iff the unsigned distance
(s - last) mod 2^32 lies in [1, 2^31). The code instead accepts iff the
previous id (with None read as -1) is at most s as a plain integer: a
duplicate with s equal to the last id is accepted again, and a
forward-wrap frame with s below the last id is discarded. On rejection
the previous id is returned unchanged; on acceptance s replaces it. -/
theorem c1_sequence_filter (seq sampleCount channelCount : Nat) (payload : List Nat)
    (prev : Option Int) (hseq : seq < 4294967296)
    (hsc : sampleCount < 65536) (hcc : channelCount < 65536)
    (hpay : sampleCount * channelCount * 8 ≤ payload.length) :
    ((udpDeserialize (mkDataFrame seq sampleCount channelCount payload) prev).1.isSome
      ↔ prev.getD (-1) ≤ (seq : Int))
    ∧ (udpDeserialize (mkDataFrame seq sampleCount channelCount payload) prev).2
      = (if prev.getD (-1) ≤ (seq : Int) then (seq : Int) else prev.getD (-1)) := by
  rw [udpDeserialize_mkDataFrame seq sampleCount channelCount payload prev hseq hsc hcc hpay]
  by_cases h : prev.getD (-1) ≤ (seq : Int)
  · rw [if_neg (by omega), if_pos h]
    simp [h]
  · rw [if_pos (by omega), if_neg h]
    simp [h]

/-- Concrete instantiation of the C1 theorem: previous id 7, incoming
id 9, an empty one-by-zero payload. -/
theorem c1_sequence_filter_witness :
    ((udpDeserialize (mkDataFrame 9 1 0 []) (some 7)).1.isSome ↔ (7 : Int) ≤ 9)
    ∧ (udpDeserialize (mkDataFrame 9 1 0 []) (some 7)).2
      = (if (7 : Int) ≤ (9 : Int) then (9 : Int) else 7) := by
  have h := c1_sequence_filter 9 1 0 [] (some 7) (by decide) (by decide) (by decide) (by decide)
  simpa using h

/-- C1, claim as frozen is false: a duplicate datagram whose sequence id
equals the last accepted id 5 is accepted by the code, although the
unsigned distance (5 - 5) mod 2^32 = 0 is outside [1, 2^31). -/
theorem c1_counterexample :
    ((udpDeserialize (mkDataFrame 5 0 0 []) (some 5)).1.isSome = true)
    ∧ ¬ ((some (5 : Int)) = none
        ∨ (1 ≤ ((5 : Int) - 5) % 4294967296 ∧ ((5 : Int) - 5) % 4294967296 < 2147483648)) := by
  decide

/-- C3. The sanity check in UdpResponseProtocol.deserialize joins the
magic test and the version test with a conjunction, so a datagram is
rejected only when BOTH fields are wrong: a bad magic with a good
version is decoded (first conjunct), and a good magic with a bad
version is decoded as well (second conjunct); in both cases the stored
sequence id advances to the frame id 1 instead of staying put. The
warning log, the module docstring and the spec all intend each wrong
field alone to cause rejection. -/
theorem c3_magic_version_check_bug :
    ((udpDeserialize [0, 0, 0, 1, 0, 0, 0, 1, 0, 0, 0, 0] none).1.isSome = true)
    ∧ (udpDeserialize [0, 0, 0, 1, 0, 0, 0, 1, 0, 0, 0, 0] none).2 = 1
    ∧ ((udpDeserialize [218, 122, 0, 2, 0, 0, 0, 1, 0, 0, 0, 0] none).1.isSome = true)
    ∧ (udpDeserialize [218, 122, 0, 2, 0, 0, 0, 1, 0, 0, 0, 0] none).2 = 1
    ∧ unpack2 [0, 0, 0, 1, 0, 0, 0, 1, 0, 0, 0, 0] 0 ≠ dataMagicCode
    ∧ unpack2 [218, 122, 0, 2, 0, 0, 0, 1, 0, 0, 0, 0] 2 ≠ dataVersion := by
  decide

end UdpDataFrame

section ControlFrame

/-- UdpProtocolConstants.control_magic_code. -/
def controlMagicCode : Nat := 0xC0DE

/-- UdpProtocolConstants.control_version. -/
def controlVersion : Nat := 1

/-- UdpProtocolConstants.control_header_len: struct calcsize of the
network order format with fields H H H I, hence 10 bytes. -/
def controlHeaderLen : Nat := 10

/-- build_control_header from devices/udp_pedal_device.py lines 16-23:
packs magic, protocol version, operational code and payload length. The
version argument of the Python function is ignored by its body, which
always packs the control_version constant. -/
def buildControlHeader (operationalCode payloadLen : Nat) : List Nat :=
  pack2 controlMagicCode ++ pack2 controlVersion ++ pack2 operationalCode ++ pack4 payloadLen

/-- parse_control_header from devices/udp_pedal_device.py lines 26-27:
unpacks the four header fields. -/
def parseControlHeader (data : List Nat) : Nat × Nat × Nat × Nat :=
  (unpack2 data 0, unpack2 data 2, unpack2 data 4, unpack4 data 6)

/-- UdpPedalDeviceMocker._send_control_response from
mockers/udp_pedal_device_mocker.py lines 239-247: the emulator packs the
same header followed by the payload in one send. -/
def sendControlResponsePacket (operationalCode : Nat) (payload : List Nat) : List Nat :=
  (pack2 controlMagicCode ++ pack2 controlVersion ++ pack2 operationalCode ++
    pack4 payload.length) ++ payload

/-- UdpConfigurationProtocol.serialized from
devices/udp_communication_protocol.py lines 187-205, with the JSON dump
of the configuration dictionary abstracted as the payload byte argument:
the serializer packs the header with the SET_CONFIG opcode 1 and the
payload length, then appends the payload. -/
def udpConfigurationSerialized (payload : List Nat) : List Nat :=
  (pack2 controlMagicCode ++ pack2 controlVersion ++ pack2 1 ++ pack4 payload.length) ++ payload

/-- C5. For every opcode below 2^16 and payload below 2^32 bytes, the
client header builder, the SET_CONFIG serializer and the emulator
response encoder produce the same 10-byte big-endian header magic
0xC0DE, version 1, opcode, payload length, followed by the payload, and
parsing the header back recovers the four fields. -/
theorem c5_control_frame_layout (op : Nat) (p : List Nat)
    (hop : op < 65536) (hlen : p.length < 4294967296) :
    sendControlResponsePacket op p = buildControlHeader op p.length ++ p
    ∧ (buildControlHeader op p.length).length = controlHeaderLen
    ∧ buildControlHeader op p.length
      = [192, 222, 0, 1, op / 256 % 256, op % 256] ++ pack4 p.length
    ∧ parseControlHeader (sendControlResponsePacket op p) = (controlMagicCode, 1, op, p.length)
    ∧ udpConfigurationSerialized p = buildControlHeader 1 p.length ++ p := by
  refine ⟨rfl, rfl, rfl, ?_, rfl⟩
  have h1 : unpack2 (sendControlResponsePacket op p) 0 = 49374 := rfl
  have h2 : unpack2 (sendControlResponsePacket op p) 2 = 1 := rfl
  have h3 : unpack2 (sendControlResponsePacket op p) 4 = 256 * (op / 256 % 256) + op % 256 := rfl
  have h4 : unpack4 (sendControlResponsePacket op p) 6 =
      16777216 * (p.length / 16777216 % 256) + 65536 * (p.length / 65536 % 256) +
        256 * (p.length / 256 % 256) + p.length % 256 := rfl
  simp only [parseControlHeader, h1, h2, h3, h4, controlMagicCode]
  refine Prod.ext rfl (Prod.ext rfl (Prod.ext ?_ ?_)) <;> simp <;> omega

/-- Concrete instantiation of the C5 theorem: the PING acknowledgement
with payload PONG (bytes 80 79 78 71). -/
theorem c5_control_frame_layout_witness :
    sendControlResponsePacket 6 [80, 79, 78, 71]
      = buildControlHeader 6 [80, 79, 78, 71].length ++ [80, 79, 78, 71]
    ∧ (buildControlHeader 6 [80, 79, 78, 71].length).length = controlHeaderLen
    ∧ buildControlHeader 6 [80, 79, 78, 71].length
      = [192, 222, 0, 1, 6 / 256 % 256, 6 % 256] ++ pack4 [80, 79, 78, 71].length
    ∧ parseControlHeader (sendControlResponsePacket 6 [80, 79, 78, 71])
      = (controlMagicCode, 1, 6, [80, 79, 78, 71].length)
    ∧ udpConfigurationSerialized [80, 79, 78, 71]
      = buildControlHeader 1 [80, 79, 78, 71].length ++ [80, 79, 78, 71] :=
  c5_control_frame_layout 6 [80, 79, 78, 71] (by decide) (by decide)

end ControlFrame

section LegacyRequest

/-- Total command length packed by TcpRequestProtocol.__init__ line 55:
the row count times the length of the first row. -/
def tcpCommandTotalLen (m : List (List Nat)) : Nat := m.length * (m.headD []).length

/-- TcpRequestProtocol.serialized from
devices/tpc_communication_protocol.py lines 54-69: the total length
packed as a big-endian int32 (format !i, identical to the unsigned
encoding below 2^31), followed by one byte per command entry in
row-major order (format !B per entry). -/
def tcpRequestSerialized (m : List (List Nat)) : List Nat :=
  pack4 (tcpCommandTotalLen m) ++ m.flatten

/-- A byte reinterpreted as a signed char, as struct unpack with format
!b does in TcpPedalDeviceMocker._listen_command line 67. -/
def signedByte (b : Nat) : Int := if b < 128 then (b : Int) else (b : Int) - 256

/-- The regrouping commands i to i plus 2 of
TcpPedalDeviceMocker._listen_command line 68. -/
def chunkPairs : List Int → List (List Int)
  | [] => []
  | [a] => [[a]]
  | a :: b :: rest => [a, b] :: chunkPairs rest

/-- TcpPedalDeviceMocker._listen_command decode path from
mockers/tcp_pedal_device_mocker.py lines 56-68, on the bytes of one
request exchange: read the signed int32 length prefix, require the rest
of the exchange to supply exactly that many bytes (recv_exact returns an
empty string for a nonpositive count, which the falsy check turns into a
failure), unpack them as signed chars and regroup into pairs. -/
def listenCommandDecode (data : List Nat) : Option (List (List Int)) :=
  if data.length < 4 then none
  else
    let n := unpackInt32 data 0
    if n ≤ 0 then none
    else if (data.drop 4).length ≠ n.toNat then none
    else some (chunkPairs ((data.drop 4).map signedByte))

lemma unpackInt32_pack4 (v : Nat) (rest : List Nat) (h : v < 2147483648) :
    unpackInt32 (pack4 v ++ rest) 0 = (v : Int) := by
  have hu : unpack4 (pack4 v ++ rest) 0 = v := by
    have : unpack4 (pack4 v ++ rest) 0 =
        16777216 * (v / 16777216 % 256) + 65536 * (v / 65536 % 256) +
          256 * (v / 256 % 256) + v % 256 := rfl
    rw [this]; omega
  simp only [unpackInt32, hu]
  rw [if_pos (by exact_mod_cast h)]

lemma flatten_length_of_pairs {α : Type} (m : List (List α)) (h : ∀ r ∈ m, r.length = 2) :
    m.flatten.length = 2 * m.length := by
  induction m with
  | nil => rfl
  | cons r rest ih =>
    have hr : r.length = 2 := h r (by simp)
    have := ih (fun s hs => h s (by simp [hs]))
    simp only [List.flatten_cons, List.length_append, List.length_cons, this, hr]
    omega

lemma chunkPairs_flatten (m : List (List Int)) (h : ∀ r ∈ m, r.length = 2) :
    chunkPairs m.flatten = m := by
  induction m with
  | nil => rfl
  | cons r rest ih =>
    have hr : r.length = 2 := h r (by simp)
    obtain ⟨a, b, rfl⟩ := List.length_eq_two.mp hr
    have := ih (fun s hs => h s (by simp [hs]))
    simp [chunkPairs, this]

/-- The command matrix viewed over the integers, for comparison with
the signed values the mocker decodes. -/
def intMatrix (m : List (List Nat)) : List (List Int) :=
  m.map (fun r => r.map (fun e => Int.ofNat e))

/-- C2, claim as frozen is false: the encoder packs entries as unsigned
bytes but the mocker unpacks them as signed chars, so the matrix with
the single pair 128, 0 decodes to the pair -128, 0 and is not
recovered. -/
theorem c2_counterexample :
    listenCommandDecode (tcpRequestSerialized [[128, 0]]) = some [[-128, 0]]
    ∧ (some [[(-128 : Int), 0]]) ≠ some (intMatrix [[128, 0]]) := by
  constructor
  · rfl
  · decide

/-- C2. For every nonempty command matrix of pairs with entries in
[0, 127] and fewer than 2^31 total entries, decoding the serialized
request with the mocker regrouping recovers the matrix. Entries in
[128, 255] are excluded: the signed-char unpack of the mocker maps them
to negative values. -/
theorem c2_legacy_roundtrip (m : List (List Nat))
    (hrow : ∀ r ∈ m, r.length = 2)
    (hent : ∀ r ∈ m, ∀ e ∈ r, e ≤ 127)
    (hne : m ≠ [])
    (hsize : m.length * 2 < 2147483648) :
    listenCommandDecode (tcpRequestSerialized m) = some (intMatrix m) := by
  have htlen : tcpCommandTotalLen m = m.length * 2 := by
    obtain ⟨r0, rest, rfl⟩ := List.exists_cons_of_ne_nil hne
    have : r0.length = 2 := hrow r0 (by simp)
    simp [tcpCommandTotalLen, this]
  have hflat : m.flatten.length = 2 * m.length := flatten_length_of_pairs m hrow
  have hlen : (tcpRequestSerialized m).length = 4 + m.flatten.length := by
    simp [tcpRequestSerialized, pack4]
    omega
  have hdrop : (tcpRequestSerialized m).drop 4 = m.flatten := by
    rw [tcpRequestSerialized, show (4 : Nat) = (pack4 (tcpCommandTotalLen m)).length from rfl,
      List.drop_left]
  have hn : unpackInt32 (tcpRequestSerialized m) 0 = ((m.length * 2 : Nat) : Int) := by
    simpa [tcpRequestSerialized, htlen] using
      unpackInt32_pack4 (tcpCommandTotalLen m) m.flatten (by omega)
  have hmlen : 0 < m.length := List.length_pos.mpr hne
  have hmap : m.flatten.map signedByte = (intMatrix m).flatten := by
    simp only [intMatrix]
    rw [List.map_flatten]
    refine congrArg List.flatten (List.map_congr_left ?_)
    intro r hr
    apply List.map_congr_left
    intro e he
    have he127 : e ≤ 127 := hent r hr e he
    simp only [signedByte]
    rw [if_pos (by omega)]
    rfl
  simp only [listenCommandDecode, hn, hdrop]
  rw [if_neg (by omega), if_neg (by omega), if_neg (by rw [hflat]; simp; omega)]
  rw [hmap, chunkPairs_flatten]
  intro r hr
  obtain ⟨s, hs, rfl⟩ := List.mem_map.mp hr
  simp [hrow s hs]

/-- Concrete instantiation of the C2 theorem: the two pairs 0, 1 and
2, 3 round-trip. -/
theorem c2_legacy_roundtrip_witness :
    listenCommandDecode (tcpRequestSerialized [[0, 1], [2, 3]])
      = some (intMatrix [[0, 1], [2, 3]]) :=
  c2_legacy_roundtrip [[0, 1], [2, 3]] (by decide) (by decide) (by decide) (by decide)

end LegacyRequest

section Arrays

/-- A two-dimensional numpy float array: a shape and an entry function
over the rationals, the real-number semantics of the transported
doubles. Entries outside the shape are irrelevant. -/
structure NDArray where
  nrows : Nat
  ncols : Nat
  entry : Nat → Nat → Rat

end Arrays

section LegacyResponse

/-- TcpResponseProtocol.deserialize from
devices/tpc_communication_protocol.py lines 88-93, on the already
unpacked doubles: reshape the flat sequence into rows of ten values
(data_shape is -1 by 10) and transpose, so the result has ten rows and
entry i j equals flat value 10 j + i. Row count ten is the sample count
of a block; column 0 after the transpose is the time column. -/
def tcpDeserialize (flat : List Rat) : NDArray :=
  { nrows := 10
    ncols := flat.length / 10
    entry := fun i j => flat.getD (10 * j + i) 0 }

/-- The monotonicity guard of TcpPedalDevice.get_next_data from
devices/tcp_pedal_device.py lines 97-105, after a successful receive and
decode: compare the first timestamp of the decoded block, entry 0 0,
with the stored previous last timestamp; when the stored value exists
and the first timestamp is strictly below it, return no block and keep
the stored value; otherwise store the last timestamp, entry nrows-1 0 of
the block, and return the block. The imported identifier AnswerProtocol
resolves to the TCP response protocol. -/
def getNextDataStep (previousLastTimestamp : Option Rat) (flat : List Rat) :
    Option NDArray × Option Rat :=
  let output := tcpDeserialize flat
  let firstTimestamp := output.entry 0 0
  let lastTimestamp := output.entry (output.nrows - 1) 0
  match previousLastTimestamp with
  | some p => if firstTimestamp < p then (none, some p) else (some output, some lastTimestamp)
  | none => (some output, some lastTimestamp)

/-- C4. For the legacy poll: a decoded block whose first timestamp is
strictly below the stored previous last timestamp is dropped with the
stored value unchanged; otherwise the block is returned and the stored
value becomes the last timestamp of the block. The comparison reads the
first and the last entry of the time column, which after the transpose
are flat values 0 and 9. -/
theorem c4_legacy_monotonicity_guard (prev : Option Rat) (flat : List Rat)
    (hflat : 10 ≤ flat.length) :
    (∀ p, prev = some p → flat.getD 0 0 < p →
      getNextDataStep prev flat = (none, some p))
    ∧ (∀ p, prev = some p → ¬ flat.getD 0 0 < p →
      getNextDataStep prev flat = (some (tcpDeserialize flat), some (flat.getD 9 0)))
    ∧ (prev = none →
      getNextDataStep prev flat = (some (tcpDeserialize flat), some (flat.getD 9 0)))
    ∧ (tcpDeserialize flat).entry 0 0 = flat.getD 0 0
    ∧ (tcpDeserialize flat).entry ((tcpDeserialize flat).nrows - 1) 0 = flat.getD 9 0 := by
  have h00 : (tcpDeserialize flat).entry 0 0 = flat.getD 0 0 := rfl
  have h90 : (tcpDeserialize flat).entry ((tcpDeserialize flat).nrows - 1) 0
      = flat.getD 9 0 := rfl
  refine ⟨?_, ?_, ?_, h00, h90⟩
  · rintro p rfl h
    simp only [getNextDataStep, h00, h90]
    rw [if_pos h]
  · rintro p rfl h
    simp only [getNextDataStep, h00, h90]
    rw [if_neg h]
  · rintro rfl
    rfl

/-- Concrete instantiation of the C4 theorem, the scenario of the spec:
previous last timestamp 1, new block starting at timestamp 1/2; the
block is dropped and the stored timestamp stays 1. -/
theorem c4_legacy_monotonicity_guard_witness :
    getNextDataStep (some 1) [1/2, 0, 0, 0, 0, 0, 0, 0, 0, 3/4] = (none, some 1) :=
  (c4_legacy_monotonicity_guard (some 1) [1/2, 0, 0, 0, 0, 0, 0, 0, 0, 3/4]
    (by decide)).1 1 rfl (by norm_num)

end LegacyResponse

section Mocker

/-- Values of the JSON shapes this protocol exchanges: integers, JSON
booleans, integer arrays and null. The json loads call of the dispatcher
is abstracted by handing the dispatcher the parsed key-value list. -/
inductive JsonValue where
  | num (n : Int)
  | jbool (b : Bool)
  | arr (xs : List Int)
  | null
deriving DecidableEq

/-- Lookup in a parsed JSON object, as dict indexing does. -/
def jsonGet (cfg : List (String × JsonValue)) (k : String) : Option JsonValue :=
  (cfg.find? (fun kv => kv.1 = k)).map (fun kv => kv.2)

/-- The value config.get(k) hands to the dispatcher: a JSON null becomes
the Python None, which the following is-not-None guard skips exactly
like a missing key. -/
def configGet (cfg : List (String × JsonValue)) (k : String) : Option JsonValue :=
  match jsonGet cfg k with
  | some .null => none
  | v => v

/-- The Python int conversion applied to a parsed JSON value: integers
pass through, booleans become 0 or 1, and a list raises TypeError, which
the dispatcher catches by resetting the session. -/
def pyIntOf : JsonValue → Except String Int
  | .num n => .ok n
  | .jbool b => .ok (if b then 1 else 0)
  | .arr _ => .error "TypeError"
  | .null => .error "TypeError"

/-- Mutable state of UdpPedalDeviceMocker relevant to the control and
streaming behaviour, from the fields set in __init__ of
mockers/udp_pedal_device_mocker.py lines 24-59. -/
structure MockerState where
  frequency : Int
  samplePerBlock : Int
  channelsToServe : List Int
  sequenceId : Nat
  isStreaming : Bool
  hasControlConnection : Bool
  hasDataAddr : Bool
  areSocketsInitialized : Bool
deriving DecidableEq

/-- UdpPedalDeviceMocker.__init__: frequency 50, ten samples per block,
all 45 channel codes shifted by one to include the time column, sequence
id zero, nothing connected and no streaming. -/
def initMockerState : MockerState :=
  { frequency := 50
    samplePerBlock := 10
    channelsToServe := (List.range 45).map (fun v => (v : Int) + 1)
    sequenceId := 0
    isStreaming := false
    hasControlConnection := false
    hasDataAddr := false
    areSocketsInitialized := false }

/-- SET_CONFIG frequency field, lines 168-170: applied only when
supplied and not null. -/
def setConfigFrequency (s : MockerState) (cfg : List (String × JsonValue)) :
    Except String MockerState :=
  match configGet cfg "frequency" with
  | none => .ok s
  | some v => (pyIntOf v).map (fun n => { s with frequency := n })

/-- SET_CONFIG sample_per_block field, lines 171-173: the accepted key
is sample_per_block; applied only when supplied and not null. -/
def setConfigSamplePerBlock (s : MockerState) (cfg : List (String × JsonValue)) :
    Except String MockerState :=
  match configGet cfg "sample_per_block" with
  | none => .ok s
  | some v => (pyIntOf v).map (fun n => { s with samplePerBlock := n })

/-- SET_CONFIG channels field, lines 174-178: each listed channel code
is shifted by one so the time column at index 0 stays included; a
non-list value raises and resets the session. -/
def setConfigChannels (s : MockerState) (cfg : List (String × JsonValue)) :
    Except String MockerState :=
  match configGet cfg "channels" with
  | none => .ok s
  | some (.arr xs) => .ok { s with channelsToServe := xs.map (fun v => v + 1) }
  | some _ => .error "TypeError"

/-- OperationalCode.ACK. -/
def ackOpcode : Nat := 6

/-- The bytes of the OK acknowledgement payload. -/
def okPayload : List Nat := [79, 75]

/-- The SET_CONFIG branch of UdpPedalDeviceMocker._handle_control_connection,
lines 165-187: apply the three recognized keys in order when supplied,
ignore every other key, then acknowledge with ACK and payload OK. An
error propagates to the handler which resets the session. -/
def handleSetConfig (s : MockerState) (cfg : List (String × JsonValue)) :
    Except String (MockerState × (Nat × List Nat)) :=
  match setConfigFrequency s cfg with
  | .error e => .error e
  | .ok s1 =>
    match setConfigSamplePerBlock s1 cfg with
    | .error e => .error e
    | .ok s2 =>
      match setConfigChannels s2 cfg with
      | .error e => .error e
      | .ok s3 => .ok (s3, (ackOpcode, okPayload))

/-- The GET_STATUS branch, lines 205-218: the status object the mocker
serializes into the ACK payload. -/
def handleGetStatus (s : MockerState) : List (String × JsonValue) :=
  [("is_streaming", .jbool s.isStreaming),
   ("frequency", .num s.frequency),
   ("sample_per_block", .num s.samplePerBlock),
   ("channels", .arr s.channelsToServe),
   ("sequence_id", .num (s.sequenceId : Int))]

/-- C6, claim as frozen is false: a SET_CONFIG whose payload carries the
key samples_per_block with the positive integer 20 is acknowledged with
ACK OK, yet the samples-per-block setting stays at its previous value
10: the dispatcher reads the key sample_per_block and treats
samples_per_block itself as unknown. -/
theorem c6_counterexample :
    handleSetConfig initMockerState [("samples_per_block", JsonValue.num 20)]
      = .ok (initMockerState, (ackOpcode, okPayload))
    ∧ initMockerState.samplePerBlock = 10
    ∧ (10 : Int) ≠ 20 := by
  refine ⟨?_, rfl, by decide⟩
  rfl

/-- C6. The key the dispatcher accepts is sample_per_block: supplying it
with a positive integer n, next to any keys outside the three recognized
ones, updates exactly the samples-per-block setting, acknowledges with
ACK OK, and the new value shows in the GET_STATUS object; a payload
carrying only unrecognized keys, samples_per_block or sample_window
included, leaves the whole state unchanged and still acknowledges OK. -/
theorem c6_set_config_sample_per_block (s : MockerState) (n : Int)
    (cfg : List (String × JsonValue)) (hn : 0 < n)
    (hcfg : ∀ kv ∈ cfg, kv.1 ≠ "frequency" ∧ kv.1 ≠ "sample_per_block" ∧ kv.1 ≠ "channels") :
    handleSetConfig s (("sample_per_block", JsonValue.num n) :: cfg)
      = .ok ({ s with samplePerBlock := n }, (ackOpcode, okPayload))
    ∧ handleSetConfig s cfg = .ok (s, (ackOpcode, okPayload))
    ∧ jsonGet (handleGetStatus { s with samplePerBlock := n }) "sample_per_block"
      = some (JsonValue.num n) := by
  have hnone : ∀ k, (∀ kv ∈ cfg, kv.1 ≠ k) → jsonGet cfg k = none := by
    intro k hk
    unfold jsonGet
    rw [List.find?_eq_none.mpr]
    · rfl
    · intro kv hkv
      simpa using hk kv hkv
  have hfreq : configGet cfg "frequency" = none := by
    rw [configGet, hnone "frequency" (fun kv hkv => (hcfg kv hkv).1)]
  have hspb : configGet cfg "sample_per_block" = none := by
    rw [configGet, hnone "sample_per_block" (fun kv hkv => (hcfg kv hkv).2.1)]
  have hch : configGet cfg "channels" = none := by
    rw [configGet, hnone "channels" (fun kv hkv => (hcfg kv hkv).2.2)]
  have hfreqn : jsonGet cfg "frequency" = none :=
    hnone "frequency" (fun kv hkv => (hcfg kv hkv).1)
  have hchn : jsonGet cfg "channels" = none :=
    hnone "channels" (fun kv hkv => (hcfg kv hkv).2.2)
  have hfreq2 : configGet (("sample_per_block", JsonValue.num n) :: cfg) "frequency" = none := by
    rw [configGet, jsonGet, List.find?_cons_of_neg _ (by simp)]
    rw [jsonGet] at hfreqn
    rw [hfreqn]
  have hspb2 : configGet (("sample_per_block", JsonValue.num n) :: cfg) "sample_per_block"
      = some (JsonValue.num n) := by
    rw [configGet, jsonGet, List.find?_cons_of_pos _ (by simp)]
    rfl
  have hch2 : configGet (("sample_per_block", JsonValue.num n) :: cfg) "channels" = none := by
    rw [configGet, jsonGet, List.find?_cons_of_neg _ (by simp)]
    rw [jsonGet] at hchn
    rw [hchn]
  refine ⟨?_, ?_, rfl⟩
  · have h1 : setConfigFrequency s (("sample_per_block", JsonValue.num n) :: cfg) = .ok s := by
      rw [setConfigFrequency, hfreq2]
    have h2 : setConfigSamplePerBlock s (("sample_per_block", JsonValue.num n) :: cfg)
        = .ok { s with samplePerBlock := n } := by
      rw [setConfigSamplePerBlock, hspb2]
      rfl
    have h3 : setConfigChannels { s with samplePerBlock := n }
        (("sample_per_block", JsonValue.num n) :: cfg) = .ok { s with samplePerBlock := n } := by
      rw [setConfigChannels, hch2]
    simp only [handleSetConfig, h1, h2, h3]
  · have h1 : setConfigFrequency s cfg = .ok s := by rw [setConfigFrequency, hfreq]
    have h2 : setConfigSamplePerBlock s cfg = .ok s := by rw [setConfigSamplePerBlock, hspb]
    have h3 : setConfigChannels s cfg = .ok s := by rw [setConfigChannels, hch]
    simp only [handleSetConfig, h1, h2, h3]

/-- Concrete instantiation of the C6 theorem: sample_per_block 20 next
to the unknown keys samples_per_block and sample_window. -/
theorem c6_set_config_sample_per_block_witness :
    handleSetConfig initMockerState
      [("sample_per_block", JsonValue.num 20),
       ("samples_per_block", JsonValue.num 99), ("sample_window", JsonValue.num 99)]
      = .ok ({ initMockerState with samplePerBlock := 20 }, (ackOpcode, okPayload))
    ∧ handleSetConfig initMockerState
      [("samples_per_block", JsonValue.num 99), ("sample_window", JsonValue.num 99)]
      = .ok (initMockerState, (ackOpcode, okPayload))
    ∧ jsonGet (handleGetStatus { initMockerState with samplePerBlock := 20 })
      "sample_per_block" = some (JsonValue.num 20) :=
  c6_set_config_sample_per_block initMockerState 20
    [("samples_per_block", JsonValue.num 99), ("sample_window", JsonValue.num 99)]
    (by decide) (by decide)

/-- Session events of the mocker that touch its state: one frame
emission of the streamer loop (lines 296-298), the session teardown
_stop_listening (lines 122-140), the STOP and START branches of the
dispatcher, the acceptance of a client by _start_listening, a SET_CONFIG
dispatch, and the state-reading GET_STATUS and PING branches. -/
inductive MockerOp where
  | emitFrame
  | stopListening
  | handleStop
  | handleStart
  | acceptClient
  | setConfig (cfg : List (String × JsonValue))
  | getStatus
  | ping

/-- UdpPedalDeviceMocker._stop_listening on the state fields: stop the
streaming, drop the connection and the datagram peer address, mark the
sockets closed. The sequence id field is not touched. -/
def stopListeningState (s : MockerState) : MockerState :=
  { s with
    isStreaming := false
    hasControlConnection := false
    hasDataAddr := false
    areSocketsInitialized := false }

/-- Effect of each session event on the mocker state. A frame emission
applies the wrapping increment to the sequence id; a failing SET_CONFIG
is caught by the handler, which resets the session. -/
def applyOp (s : MockerState) : MockerOp → MockerState
  | .emitFrame => { s with sequenceId := (s.sequenceId + 1) % 4294967296 }
  | .stopListening => stopListeningState s
  | .handleStop => { s with isStreaming := false }
  | .handleStart => { s with isStreaming := true }
  | .acceptClient =>
      { s with
        hasControlConnection := true
        hasDataAddr := true
        areSocketsInitialized := true }
  | .setConfig cfg =>
      match handleSetConfig s cfg with
      | .ok (s2, _) => s2
      | .error _ => stopListeningState s
  | .getStatus => s
  | .ping => s

/-- Test for the frame-emission event. -/
def isEmit : MockerOp → Bool
  | .emitFrame => true
  | _ => false

/-- Number of emitted frames in a list of session events. -/
def countEmits (ops : List MockerOp) : Nat := (ops.filter isEmit).length

lemma setConfigFrequency_sequenceId (s s2 : MockerState) (cfg : List (String × JsonValue))
    (h : setConfigFrequency s cfg = .ok s2) : s2.sequenceId = s.sequenceId := by
  rw [setConfigFrequency] at h
  rcases hc : configGet cfg "frequency" with _ | v
  · rw [hc] at h
    cases h
    rfl
  · rw [hc] at h
    cases v <;> simp [pyIntOf, Except.map] at h <;> rw [← h]

lemma setConfigSamplePerBlock_sequenceId (s s2 : MockerState) (cfg : List (String × JsonValue))
    (h : setConfigSamplePerBlock s cfg = .ok s2) : s2.sequenceId = s.sequenceId := by
  rw [setConfigSamplePerBlock] at h
  rcases hc : configGet cfg "sample_per_block" with _ | v
  · rw [hc] at h
    cases h
    rfl
  · rw [hc] at h
    cases v <;> simp [pyIntOf, Except.map] at h <;> rw [← h]

lemma setConfigChannels_sequenceId (s s2 : MockerState) (cfg : List (String × JsonValue))
    (h : setConfigChannels s cfg = .ok s2) : s2.sequenceId = s.sequenceId := by
  rw [setConfigChannels] at h
  rcases hc : configGet cfg "channels" with _ | v
  · rw [hc] at h
    cases h
    rfl
  · rw [hc] at h
    cases v <;> simp at h <;> rw [← h]

lemma handleSetConfig_sequenceId (s : MockerState) (cfg : List (String × JsonValue))
    (s2 : MockerState) (resp : Nat × List Nat)
    (h : handleSetConfig s cfg = .ok (s2, resp)) : s2.sequenceId = s.sequenceId := by
  rw [handleSetConfig] at h
  split at h
  · cases h
  next t1 h1 =>
    split at h
    · cases h
    next t2 h2 =>
      split at h
      · cases h
      next t3 h3 =>
        cases h
        rw [setConfigChannels_sequenceId t2 s2 cfg h3,
          setConfigSamplePerBlock_sequenceId t1 t2 cfg h2,
          setConfigFrequency_sequenceId s t1 cfg h1]

lemma applyOp_sequenceId (s : MockerState) (op : MockerOp) :
    (applyOp s op).sequenceId
      = if isEmit op then (s.sequenceId + 1) % 4294967296 else s.sequenceId := by
  cases op with
  | setConfig cfg =>
    simp only [applyOp, isEmit, Bool.false_eq_true, if_false]
    rcases h : handleSetConfig s cfg with e | p
    · rfl
    · exact handleSetConfig_sequenceId s cfg p.1 p.2 (by rw [h])
  | _ => simp [applyOp, isEmit, stopListeningState]

/-- C10. Along any list of session events starting from a state with an
in-range sequence id, the final sequence id is the initial one advanced
by the wrapping increment once per emitted frame: session teardown,
STOP, new client acceptance, SET_CONFIG and the read-only commands never
reset it, and the constructed state starts at zero, so frames of a later
session continue the numbering of the earlier one. -/
theorem c10_sequence_id_never_reset (ops : List MockerOp) (s : MockerState)
    (h : s.sequenceId < 4294967296) :
    (ops.foldl applyOp s).sequenceId = (s.sequenceId + countEmits ops) % 4294967296
    ∧ initMockerState.sequenceId = 0 := by
  refine ⟨?_, rfl⟩
  induction ops generalizing s with
  | nil => simp [countEmits]; omega
  | cons op rest ih =>
    rw [List.foldl_cons]
    have hop := applyOp_sequenceId s op
    by_cases he : isEmit op
    · rw [he, if_pos rfl] at hop
      have := ih (applyOp s op) (by rw [hop]; exact Nat.mod_lt _ (by omega))
      rw [this, hop]
      have hc : countEmits (op :: rest) = countEmits rest + 1 := by
        simp [countEmits, List.filter, he]
      rw [hc]
      omega
    · rw [if_neg he] at hop
      have := ih (applyOp s op) (by rw [hop]; exact h)
      rw [this, hop]
      have hc : countEmits (op :: rest) = countEmits rest := by
        simp only [countEmits, List.filter]
        rw [Bool.not_eq_true] at he
        rw [he]
      rw [hc]

/-- Concrete instantiation of the C10 theorem: two frames emitted around
a teardown, a new client acceptance and a STOP leave the id at 2. -/
theorem c10_sequence_id_never_reset_witness :
    (([MockerOp.emitFrame, MockerOp.stopListening, MockerOp.acceptClient,
        MockerOp.emitFrame, MockerOp.handleStop].foldl applyOp initMockerState).sequenceId
      = (initMockerState.sequenceId
          + countEmits [MockerOp.emitFrame, MockerOp.stopListening, MockerOp.acceptClient,
              MockerOp.emitFrame, MockerOp.handleStop]) % 4294967296)
    ∧ initMockerState.sequenceId = 0 :=
  c10_sequence_id_never_reset _ initMockerState (by decide)

/-- Semantics of np.arange over the rationals for a positive step: the
entry count is the ceiling of the span over the step. -/
def npArange (start stop step : Rat) : List Rat :=
  (List.range (Int.ceil ((stop - start) / step)).toNat).map
    (fun (k : Nat) => start + (k : Rat) * step)

/-- The time vector template of UdpPedalDeviceMocker.__init__ line 48:
np.arange from 0 to sample_per_block divided by frequency, in steps of
one over frequency, both taken at CONSTRUCTION time. The template is
never recomputed afterwards. -/
def timeVectorTemplate (frequency : Rat) (samplePerBlock : Nat) : List Rat :=
  npArange 0 ((samplePerBlock : Rat) * 1 / frequency) (1 / frequency)

/-- The block time vector of UdpPedalDeviceMocker._simulate_data lines
342-346: the frozen template shifted by a whole number of block spans,
where the span is one over the CURRENT frequency times the template
length, and the Python floor division of the elapsed time by the span
gives the shift count. -/
def simulatedTimeVector (template : List Rat) (frequencyCurrent elapsed : Rat) : List Rat :=
  template.map (fun t => t
    + (Int.floor (elapsed / (1 / frequencyCurrent * (template.length : Rat))) : Rat)
      * (1 / frequencyCurrent * (template.length : Rat)))

lemma timeVectorTemplate_eq (f : Rat) (spb : Nat) (hf : 0 < f) :
    timeVectorTemplate f spb
      = (List.range spb).map (fun (k : Nat) => (k : Rat) * (1 / f)) := by
  unfold timeVectorTemplate npArange
  have hf0 : f ≠ 0 := ne_of_gt hf
  have hspan : ((spb : Rat) * 1 / f - 0) / (1 / f) = (spb : Rat) := by field_simp
  rw [hspan, Int.ceil_natCast]
  have htn : ((spb : Int)).toNat = spb := by omega
  rw [htn]
  apply List.map_congr_left
  intro k _
  ring

lemma getD_map_range (n : Nat) (g : Nat → Rat) (j : Nat) (hj : j < n) :
    ((List.range n).map g).getD j 0 = g j := by
  rw [List.getD_eq_getElem?_getD]
  rw [List.getElem?_map, List.getElem?_range hj]
  rfl

lemma simulatedTimeVector_form (f0 : Rat) (spb0 : Nat) (fCur elapsed : Rat) (hf0 : 0 < f0) :
    ∃ c : Rat, simulatedTimeVector (timeVectorTemplate f0 spb0) fCur elapsed
      = (List.range spb0).map (fun (k : Nat) => (k : Rat) * (1 / f0) + c) := by
  have hlen : ((timeVectorTemplate f0 spb0).length : Rat) = (spb0 : Rat) := by
    rw [timeVectorTemplate_eq f0 spb0 hf0, List.length_map, List.length_range]
  refine ⟨(Int.floor (elapsed / (1 / fCur * (spb0 : Rat))) : Rat)
    * (1 / fCur * (spb0 : Rat)), ?_⟩
  rw [simulatedTimeVector, hlen]
  conv => lhs; rw [timeVectorTemplate_eq f0 spb0 hf0]
  rw [List.map_map]
  apply List.map_congr_left
  intro k _
  simp

lemma simulatedTimeVector_step (f0 : Rat) (spb0 : Nat) (fCur elapsed : Rat) (i : Nat)
    (hf0 : 0 < f0) (hi : i + 1 < spb0) :
    (simulatedTimeVector (timeVectorTemplate f0 spb0) fCur elapsed).getD (i + 1) 0
      - (simulatedTimeVector (timeVectorTemplate f0 spb0) fCur elapsed).getD i 0 = 1 / f0 := by
  obtain ⟨c, hform⟩ := simulatedTimeVector_form f0 spb0 fCur elapsed hf0
  rw [hform, getD_map_range spb0 _ (i + 1) hi, getD_map_range spb0 _ i (by omega)]
  push_cast
  ring

/-- C7, claim as frozen is false: after SET_CONFIG changes the frequency
to 100 the next block still spaces its timestamps by the construction
frequency 50, not by the currently configured one. -/
theorem c7_counterexample :
    (simulatedTimeVector (timeVectorTemplate 50 10) 100 0).getD 1 0
      - (simulatedTimeVector (timeVectorTemplate 50 10) 100 0).getD 0 0 = 1 / 50
    ∧ ((1 : Rat) / 50) ≠ 1 / 100 := by
  constructor
  · exact simulatedTimeVector_step 50 10 100 0 0 (by norm_num) (by norm_num)
  · norm_num

/-- C7. Within every block the sampler publishes, consecutive timestamps
differ by exactly one over the frequency fixed at CONSTRUCTION time, for
any currently configured frequency and any elapsed time, so the
timestamps are strictly increasing; the spacing does not follow a
frequency changed later by SET_CONFIG. -/
theorem c7_block_timestamp_spacing (f0 : Rat) (spb0 : Nat) (fCur elapsed : Rat) (i : Nat)
    (hf0 : 0 < f0) (hi : i + 1 < spb0) :
    (simulatedTimeVector (timeVectorTemplate f0 spb0) fCur elapsed).getD (i + 1) 0
      - (simulatedTimeVector (timeVectorTemplate f0 spb0) fCur elapsed).getD i 0 = 1 / f0
    ∧ (simulatedTimeVector (timeVectorTemplate f0 spb0) fCur elapsed).getD i 0
      < (simulatedTimeVector (timeVectorTemplate f0 spb0) fCur elapsed).getD (i + 1) 0 := by
  have hstep := simulatedTimeVector_step f0 spb0 fCur elapsed i hf0 hi
  refine ⟨hstep, ?_⟩
  have hpos : (0 : Rat) < 1 / f0 := by positivity
  linarith

/-- Concrete instantiation of the C7 theorem: construction frequency 50,
ten samples per block, current frequency 100, one second elapsed, first
pair of timestamps. -/
theorem c7_block_timestamp_spacing_witness :
    (simulatedTimeVector (timeVectorTemplate 50 10) 100 1).getD 1 0
      - (simulatedTimeVector (timeVectorTemplate 50 10) 100 1).getD 0 0 = 1 / 50
    ∧ (simulatedTimeVector (timeVectorTemplate 50 10) 100 1).getD 0 0
      < (simulatedTimeVector (timeVectorTemplate 50 10) 100 1).getD 1 0 :=
  c7_block_timestamp_spacing 50 10 100 1 0 (by norm_num) (by norm_num)

/-- Numpy fancy indexing of columns, data with brackets colon comma
cols: every index must lie in the interval from minus the column count
to the column count minus one, negative indices counting from the end;
otherwise the operation raises IndexError, which the streamer loop
catches, so no frame is sent. -/
def npSelectColumns (a : NDArray) (cols : List Int) : Except String NDArray :=
  if cols.all (fun c => decide (-(a.ncols : Int) ≤ c) && decide (c < (a.ncols : Int))) then
    .ok { nrows := a.nrows
          ncols := cols.length
          entry := fun i j =>
            a.entry i (if cols.getD j 0 < 0 then ((a.ncols : Int) + cols.getD j 0).toNat
              else (cols.getD j 0).toNat) }
  else .error "IndexError"

/-- The block assembly of UdpPedalDeviceMocker._stream_data_loop lines
300-303: take column 0 of the simulator data as the time vector, project
the data onto the channels-to-serve column list, and concatenate the
time vector back as column 0. -/
def streamBuildBlocks (data : NDArray) (channelsToServe : List Int) : Except String NDArray :=
  (npSelectColumns data channelsToServe).map (fun dataMatrix =>
    { nrows := data.nrows
      ncols := 1 + dataMatrix.ncols
      entry := fun i j => if j = 0 then data.entry i 0 else dataMatrix.entry i (j - 1) })

/-- Fields of one outgoing data frame of _stream_data_loop lines
296-320: the incremented sequence id, the sample count header field
taken from the configured value, the channel count header field, and the
sample block whose row-major flattening is the payload, so each sample
carries exactly ncols values. -/
structure DataFrameParts where
  sequenceId : Nat
  sampleCountField : Int
  channelCountField : Nat
  blocks : NDArray

/-- One frame construction of the streamer on the current state and the
latest simulator data: fails, sending nothing, when a configured channel
index is out of range of the data. -/
def streamBuildFrame (s : MockerState) (data : NDArray) : Except String DataFrameParts :=
  (streamBuildBlocks data s.channelsToServe).map (fun blocks =>
    { sequenceId := (s.sequenceId + 1) % 4294967296
      sampleCountField := s.samplePerBlock
      channelCountField := s.channelsToServe.length + 1
      blocks := blocks })

/-- C8. When SET_CONFIG has selected the channel set S, every data frame
the streamer builds, hence every frame it emits, has channel count
header field the size of S plus one, carries the size of S plus one
values per sample in its block, and its column 0 is the time column of
the simulator data. The channels-to-serve list after SET_CONFIG is S
shifted by one; the set size is the list length since S has no
duplicate. -/
theorem c8_channel_projection (S : List Int) (data : NDArray) (s : MockerState)
    (hS : S.Nodup) (hbound : ∀ c ∈ S, 0 ≤ c ∧ c ≤ 44)
    (hserve : s.channelsToServe = S.map (fun c => c + 1))
    (hdata : data.ncols = 43)
    (frame : DataFrameParts)
    (hok : streamBuildFrame s data = .ok frame) :
    frame.channelCountField = S.length + 1
    ∧ frame.blocks.ncols = S.length + 1
    ∧ ∀ i, frame.blocks.entry i 0 = data.entry i 0 := by
  rw [streamBuildFrame] at hok
  rcases hsel : streamBuildBlocks data s.channelsToServe with e | blocks
  · rw [hsel] at hok
    cases hok
  · rw [hsel] at hok
    rw [streamBuildBlocks] at hsel
    rcases hsel2 : npSelectColumns data s.channelsToServe with e | dm
    · rw [hsel2] at hsel
      cases hsel
    · rw [hsel2] at hsel
      rw [npSelectColumns] at hsel2
      simp only [Except.map] at hok hsel
      cases hok
      cases hsel
      have hdm : dm.ncols = s.channelsToServe.length := by
        by_cases hall : s.channelsToServe.all
            (fun c => decide (-(data.ncols : Int) ≤ c) && decide (c < (data.ncols : Int)))
        · rw [if_pos hall] at hsel2
          cases hsel2
          rfl
        · rw [if_neg hall] at hsel2
          cases hsel2
      refine ⟨?_, ?_, ?_⟩
      · show s.channelsToServe.length + 1 = S.length + 1
        rw [hserve, List.length_map]
      · show 1 + dm.ncols = S.length + 1
        rw [hdm, hserve, List.length_map]
        omega
      · intro i
        rfl

/-- Concrete data for the C8 instantiation: two samples over 43 columns
whose column 0 holds the timestamps. -/
def c8Data : NDArray :=
  { nrows := 2, ncols := 43, entry := fun i j => (i : Rat) + (j : Rat) }

/-- Mocker state after a SET_CONFIG selecting channels 0 and 1. -/
def c8State : MockerState := { initMockerState with channelsToServe := [1, 2] }

/-- The frame the streamer builds on that state and data. -/
def c8Frame : DataFrameParts :=
  match streamBuildFrame c8State c8Data with
  | .ok f => f
  | .error _ => ⟨0, 0, 0, ⟨0, 0, fun _ _ => 0⟩⟩

/-- Concrete instantiation of the C8 theorem: channel set 0 and 1, so
three values per sample, and the block column 0 carries the timestamp of
sample 0. -/
theorem c8_channel_projection_witness :
    c8Frame.channelCountField = [(0 : Int), 1].length + 1
    ∧ c8Frame.blocks.ncols = [(0 : Int), 1].length + 1
    ∧ c8Frame.blocks.entry 0 0 = c8Data.entry 0 0 := by
  have h := c8_channel_projection [0, 1] c8Data c8State (by decide) (by decide) rfl rfl
    c8Frame rfl
  exact ⟨h.1, h.2.1, h.2.2 0⟩

end Mocker

section DataBuffer

/-- Data.columns_count from data/data.py line 97: the 42 channel
columns; a buffer row adds the time column in front. -/
def dataColumnsCount : Nat := 42

/-- The empty matrix np.empty with zero rows and 43 columns that the
constructor and clear install. -/
def emptyDataArr : NDArray :=
  { nrows := 0, ncols := dataColumnsCount + 1, entry := fun _ _ => 0 }

/-- The collector buffer: a wrapper around one two-dimensional array, as
the Data class of data/data.py. -/
structure DataBuf where
  arr : NDArray

/-- Data.__init__ lines 78-86: absent data yields the empty 43-column
matrix; a matrix whose column count differs from 43 raises ValueError.
The embedding works on two-dimensional arrays, where the final
one-dimension promotion branch of the constructor cannot trigger. -/
def mkData (data : Option NDArray) : Except String DataBuf :=
  match data with
  | none => .ok ⟨emptyDataArr⟩
  | some a => if a.ncols ≠ dataColumnsCount + 1 then .error "ValueError" else .ok ⟨a⟩

/-- Numpy concatenate along axis 0: requires equal column counts, also
for an empty side, and stacks the rows. -/
def npConcatRows (a b : NDArray) : Except String NDArray :=
  if a.ncols = b.ncols then
    .ok { nrows := a.nrows + b.nrows
          ncols := a.ncols
          entry := fun i j => if i < a.nrows then a.entry i j else b.entry (i - a.nrows) j }
  else .error "ValueError"

/-- Data.add_data lines 88-89: concatenate the new block below the
buffer. -/
def addData (buf : DataBuf) (newData : NDArray) : Except String DataBuf :=
  (npConcatRows buf.arr newData).map (fun a => ⟨a⟩)

/-- Data.clear lines 106-107: reinstall the empty 43-column matrix. -/
def clearData (_ : DataBuf) : DataBuf := ⟨emptyDataArr⟩

/-- Row selection data with brackets time_indices comma colon for a
tail slice, the form the live view uses: rows from the start index on,
all columns. -/
def sliceRowsFrom (a : NDArray) (start : Nat) : NDArray :=
  { nrows := a.nrows - start, ncols := a.ncols, entry := fun i j => a.entry (start + i) j }

/-- Data.__getitem__ lines 99-100 on a row slice: select the rows and
wrap them in a fresh Data, which re-runs the constructor check. -/
def getItemSlice (buf : DataBuf) (start : Nat) : Except String DataBuf :=
  mkData (some (sliceRowsFrom buf.arr start))

/-- C9. Every Data buffer keeps exactly 43 columns, one time column plus
42 channel columns, whatever the configured channel set: the constructor
rejects any other column count and accepts 43, the empty constructor and
clear produce the empty 43-column matrix, row indexing returns a
43-column buffer, and add_data succeeds exactly on 43-column blocks, so
no operation changes the width. -/
theorem c9_buffer_width_invariant (a newData : NDArray) (buf : DataBuf) (start : Nat)
    (hbuf : buf.arr.ncols = 43) :
    (∀ b, mkData (some a) = .ok b → a.ncols = 43 ∧ b.arr.ncols = 43)
    ∧ (∀ b, mkData none = .ok b → b.arr.ncols = 43 ∧ b.arr.nrows = 0)
    ∧ (clearData buf).arr.ncols = 43 ∧ (clearData buf).arr.nrows = 0
    ∧ (∀ b, getItemSlice buf start = .ok b → b.arr.ncols = 43)
    ∧ getItemSlice buf start = .ok ⟨sliceRowsFrom buf.arr start⟩
    ∧ (∀ b, addData buf newData = .ok b → newData.ncols = 43 ∧ b.arr.ncols = 43)
    ∧ (newData.ncols ≠ 43 → addData buf newData = .error "ValueError") := by
  have hwidth : dataColumnsCount + 1 = 43 := rfl
  refine ⟨?_, ?_, rfl, rfl, ?_, ?_, ?_, ?_⟩
  · intro b hb
    rw [mkData] at hb
    by_cases hcol : a.ncols = 43
    · rw [if_neg (by rw [hwidth]; omega)] at hb
      cases hb
      exact ⟨hcol, hcol⟩
    · rw [if_pos (by rw [hwidth]; omega)] at hb
      cases hb
  · intro b hb
    rw [mkData] at hb
    cases hb
    exact ⟨rfl, rfl⟩
  · intro b hb
    rw [getItemSlice, mkData] at hb
    have hs : (sliceRowsFrom buf.arr start).ncols = 43 := hbuf
    rw [if_neg (by rw [hwidth]; omega)] at hb
    cases hb
    exact hs
  · rw [getItemSlice, mkData]
    have hs : (sliceRowsFrom buf.arr start).ncols = 43 := hbuf
    rw [if_neg (by rw [hwidth]; omega)]
  · intro b hb
    rw [addData, npConcatRows] at hb
    by_cases hcol : buf.arr.ncols = newData.ncols
    · rw [if_pos hcol] at hb
      simp only [Except.map] at hb
      cases hb
      exact ⟨by omega, by simpa using hbuf⟩
    · rw [if_neg hcol] at hb
      simp only [Except.map] at hb
      cases hb
  · intro hnew
    rw [addData, npConcatRows, if_neg (by omega)]
    rfl

/-- Concrete instantiation of the C9 theorem: clearing an empty buffer
keeps 43 columns and zero rows, and adding a 44-column block to it
fails with ValueError. -/
theorem c9_buffer_width_invariant_witness :
    (clearData ⟨emptyDataArr⟩).arr.ncols = 43
    ∧ (clearData ⟨emptyDataArr⟩).arr.nrows = 0
    ∧ addData ⟨emptyDataArr⟩ ⟨1, 44, fun _ _ => 0⟩ = .error "ValueError" := by
  have h := c9_buffer_width_invariant ⟨1, 43, fun _ _ => 0⟩ ⟨1, 44, fun _ _ => 0⟩
    ⟨emptyDataArr⟩ 0 rfl
  exact ⟨h.2.2.1, h.2.2.2.1, h.2.2.2.2.2.2.2 (by decide)⟩

end DataBuffer

end PedalComm
